import Mathlib

/-!
Shallow embedding of the translation-techniques repository: four small
JavaScript translator variants that map string keys to localized text and
apply the text to document elements carrying a data-translate attribute.

Variants embedded here:
* `FlatTranslator`   — src/translation-data-attributes.js (flat key→text map);
* `MLTranslator`     — src/unnamed/part_000 (per-language sub-maps, setLanguage);
* `ProxyTranslator`  — src/unnamed/part_001 (Proxy get trap, placeholder text);
* `LocaleTranslator` — src/unnamed/part_002 (locale plus message formatter).

JavaScript objects used as dictionaries are embedded as association lists
`List (String × String)` (keys unique in the sources); property access
`obj[key]` is `jsGet`, returning `none` for an absent key (undefined).
A document element is a pair of its data-translate key and its innerHTML.
`console.warn` output is collected as a list of warning lines, and a
thrown TypeError is an `Except.error`.
-/

namespace Translation

/-- A document element selected by querySelectorAll with a data-translate
attribute: `key` is the attribute's value, `innerHTML` the element content. -/
structure Element where
  key : String
  innerHTML : String
deriving DecidableEq, Repr

/-- JavaScript property access `obj[k]` on an object embedded as an
association list: the value stored under `k`, or `none` (undefined). -/
def jsGet {α : Type} (m : List (String × α)) (k : String) : Option α :=
  (m.find? (fun p => p.1 == k)).map (fun p => p.2)

/-- JavaScript truthiness of a string-or-undefined value: undefined and the
empty string are falsy, every other string is truthy. -/
def jsTruthy : Option String → Bool
  | none => false
  | some s => s != ""

/-- JavaScript `s || d` for a string-or-undefined `s`: `d` when `s` is
undefined or falsy (empty), otherwise `s`. -/
def jsOrString : Option String → String → String
  | none, d => d
  | some s, d => if s == "" then d else s

/-- The spec's LookupResult: `Found text` or `NotFound`. -/
inductive LookupResult
  | Found (text : String)
  | NotFound
deriving DecidableEq, Repr

/-- Whether a LookupResult is `Found`. -/
def LookupResult.isFound : LookupResult → Bool
  | .Found _ => true
  | .NotFound => false

/-- The spec's applyAll summary record of applied and missing counts. -/
structure ApplySummary where
  applied : Nat
  missing : Nat
deriving DecidableEq, Repr

/-! ### Flat-map variant: src/translation-data-attributes.js -/

/-- The flat-map Translator: one key→text object `translateMap`. -/
structure FlatTranslator where
  translateMap : List (String × String)
deriving DecidableEq, Repr

/-- The constructor `constructor(translateMap)` of the flat variant:
`this.translateMap = translateMap || \x7b\x7d` defaults a missing argument to
the empty object. -/
def FlatTranslator.make (translateMap : Option (List (String × String))) :
    FlatTranslator :=
  ⟨translateMap.getD []⟩

/-- The spec's `lookup` for the flat variant, read off the guard of
`translate()` (lines 34–36): `Found v` when `this.translateMap[key]` is a
truthy (non-empty) string `v`, else `NotFound`. -/
def FlatTranslator.lookup (t : FlatTranslator) (key : String) : LookupResult :=
  match jsGet t.translateMap key with
  | none => .NotFound
  | some s => if s == "" then .NotFound else .Found s

/-- `translate()` of the flat variant (lines 31–42): for each element with a
data-translate attribute, in document order, look up its key in
`translateMap`; when truthy overwrite the element's innerHTML, otherwise warn
`Translation not found for key: <key>`. Returns the updated elements and the
warning lines. -/
def FlatTranslator.translate (t : FlatTranslator) :
    List Element → List Element × List String
  | [] => ([], [])
  | e :: rest =>
    if jsTruthy (jsGet t.translateMap e.key) then
      ({ e with innerHTML := (jsGet t.translateMap e.key).getD "" } ::
          (t.translate rest).1,
        (t.translate rest).2)
    else
      (e :: (t.translate rest).1,
        ("Translation not found for key: " ++ e.key) :: (t.translate rest).2)

/-- Modelled from the spec: the source `translate()` returns undefined; §4.1
additionally has applyAll return a summary count of applied and missing keys.
`applyAll` performs exactly the per-element steps of
`FlatTranslator.translate` and additionally counts them. -/
def FlatTranslator.applyAll (t : FlatTranslator) :
    List Element → List Element × List String × ApplySummary
  | [] => ([], [], ⟨0, 0⟩)
  | e :: rest =>
    if jsTruthy (jsGet t.translateMap e.key) then
      ({ e with innerHTML := (jsGet t.translateMap e.key).getD "" } ::
          (t.applyAll rest).1,
        (t.applyAll rest).2.1,
        ⟨(t.applyAll rest).2.2.applied + 1, (t.applyAll rest).2.2.missing⟩)
    else
      (e :: (t.applyAll rest).1,
        ("Translation not found for key: " ++ e.key) :: (t.applyAll rest).2.1,
        ⟨(t.applyAll rest).2.2.applied, (t.applyAll rest).2.2.missing + 1⟩)

/-- The example translation object of the flat variant's usage code. -/
def exampleFlatMap : List (String × String) :=
  [("hello", "Привіт"), ("goodbye", "До побачення")]

/-- `new Translator(translations)` of the flat variant's usage code. -/
def exampleFlatTranslator : FlatTranslator :=
  FlatTranslator.make (some exampleFlatMap)

/-! ### Multi-language variant: src/unnamed/part_000 -/

/-- The multi-language Translator: an active `language` and per-language
sub-maps `translations`. -/
structure MLTranslator where
  language : String
  translations : List (String × List (String × String))
deriving DecidableEq, Repr

/-- The constructor `constructor(language, translations)` of part_000:
`this.language = language || 'en'` and
`this.translations = translations || \x7b\x7d`. -/
def MLTranslator.make (language : Option String)
    (translations : Option (List (String × List (String × String)))) :
    MLTranslator :=
  ⟨jsOrString language "en", translations.getD []⟩

/-- `setLanguage(language)` of part_000: reassigns the language field. -/
def MLTranslator.setLanguage (t : MLTranslator) (language : String) :
    MLTranslator :=
  { t with language := language }

/-- The lookup expression of part_000 line 38,
`this.translations[this.language]?.[key]`: optional chaining is
`Option.bind`, so a missing language sub-map yields undefined. -/
def MLTranslator.resolve (t : MLTranslator) (key : String) : Option String :=
  (jsGet t.translations t.language).bind (fun m => jsGet m key)

/-- The spec's `lookup` for the multi-language variant, read off the guard of
`translate()` (lines 38–40): `Found v` when
`this.translations[this.language]?.[key]` is a truthy (non-empty) string `v`,
else `NotFound`. -/
def MLTranslator.lookup (t : MLTranslator) (key : String) : LookupResult :=
  match t.resolve key with
  | none => .NotFound
  | some s => if s == "" then .NotFound else .Found s

/-- `translate()` of part_000 (lines 35–46): for each element, resolve its key
against the active language's sub-map; when truthy overwrite the element's
innerHTML, otherwise warn
`Translation not found for key: <key> in language: <language>`. -/
def MLTranslator.translate (t : MLTranslator) :
    List Element → List Element × List String
  | [] => ([], [])
  | e :: rest =>
    if jsTruthy (t.resolve e.key) then
      ({ e with innerHTML := (t.resolve e.key).getD "" } :: (t.translate rest).1,
        (t.translate rest).2)
    else
      (e :: (t.translate rest).1,
        ("Translation not found for key: " ++ e.key ++ " in language: " ++
            t.language) :: (t.translate rest).2)

/-- Modelled from the spec: the source `translate()` returns undefined; §4.1
additionally has applyAll return a summary count of applied and missing keys.
`applyAll` performs exactly the per-element steps of
`MLTranslator.translate` and additionally counts them. -/
def MLTranslator.applyAll (t : MLTranslator) :
    List Element → List Element × List String × ApplySummary
  | [] => ([], [], ⟨0, 0⟩)
  | e :: rest =>
    if jsTruthy (t.resolve e.key) then
      ({ e with innerHTML := (t.resolve e.key).getD "" } :: (t.applyAll rest).1,
        (t.applyAll rest).2.1,
        ⟨(t.applyAll rest).2.2.applied + 1, (t.applyAll rest).2.2.missing⟩)
    else
      (e :: (t.applyAll rest).1,
        ("Translation not found for key: " ++ e.key ++ " in language: " ++
            t.language) :: (t.applyAll rest).2.1,
        ⟨(t.applyAll rest).2.2.applied, (t.applyAll rest).2.2.missing + 1⟩)

/-- The example translations object of part_000's usage code. -/
def exampleTranslations : List (String × List (String × String)) :=
  [("en", [("hello", "Hello"), ("goodbye", "Goodbye")]),
   ("uk", [("hello", "Привіт"), ("goodbye", "До побачення")])]

/-- `new Translator('uk', translations)` of part_000's usage code. -/
def exampleMLTranslator : MLTranslator :=
  MLTranslator.make (some "uk") (some exampleTranslations)

/-! ### Dynamic proxy variant: src/unnamed/part_001 -/

/-- A thrown JavaScript error: reading a property of undefined is a TypeError. -/
inductive JsError
  | typeError
deriving DecidableEq, Repr

/-- The proxy Translator of part_001. Its constructor stores the argument
without a default (`this.translations = translations`, line 16), so the field
may be undefined, embedded as `none`. -/
structure ProxyTranslator where
  translations : Option (List (String × String))
deriving DecidableEq, Repr

/-- `new Translator(translations)` of part_001: stores `translations` as-is
(no `|| \x7b\x7d` default) and returns a Proxy whose get trap is
`ProxyTranslator.proxyGet`. -/
def ProxyTranslator.make (translations : Option (List (String × String))) :
    ProxyTranslator :=
  ⟨translations⟩

/-- The Proxy get trap of part_001 (lines 25–27):
`target.translations[prop] || placeholder`. Every property read on the proxy
— whatever the name — goes through this trap. When `translations` is
undefined, indexing it throws a TypeError; otherwise a truthy (non-empty)
entry is returned, and an absent or empty entry yields the placeholder string
`Translation not found for key: <prop>`. -/
def ProxyTranslator.proxyGet (t : ProxyTranslator) (prop : String) :
    Except JsError String :=
  match t.translations with
  | none => .error .typeError
  | some m =>
    match jsGet m prop with
    | some s =>
        if s == "" then .ok ("Translation not found for key: " ++ prop)
        else .ok s
    | none => .ok ("Translation not found for key: " ++ prop)

/-- The usage example of part_001 (lines 43–46): for each element with a
data-translate attribute, assign `element.innerHTML = translations[key]`,
where the read goes through the proxy's get trap. A TypeError thrown by the
trap propagates; otherwise every element is overwritten. -/
def proxyApplyAll (t : ProxyTranslator) :
    List Element → Except JsError (List Element)
  | [] => .ok []
  | e :: rest =>
    match t.proxyGet e.key with
    | .error err => .error err
    | .ok v =>
      match proxyApplyAll t rest with
      | .error err => .error err
      | .ok rest' => .ok ({ e with innerHTML := v } :: rest')

/-! ### Locale-formatter variant: src/unnamed/part_002 -/

/-- The locale Translator of part_002: a `locale`, per-locale sub-maps
`translations`, and the message-formatter state captured at construction. -/
structure LocaleTranslator where
  locale : String
  translations : List (String × List (String × String))
  formatter : List (String × String)
deriving DecidableEq, Repr

/-- Modelled from the spec: `Intl.MessageFormat` is a host platform API whose
code is not in src/; spec §9 abstracts it as an injectable TextFormatter
capability satisfied by a trivial passthrough, so the formatter state is the
message map it was constructed with and `format(key)` returns that map's
entry for the key (undefined when absent). -/
def formatterFormat (messages : List (String × String)) (key : String) :
    Option String :=
  jsGet messages key

/-- The constructor `constructor(locale, translations)` of part_002:
`this.locale = locale || 'en-US'`, `this.translations = translations || \x7b\x7d`,
and the formatter is built over `this.translations[this.locale] || \x7b\x7d`. -/
def LocaleTranslator.make (locale : Option String)
    (translations : Option (List (String × List (String × String)))) :
    LocaleTranslator :=
  ⟨jsOrString locale "en-US", translations.getD [],
    (jsGet (translations.getD []) (jsOrString locale "en-US")).getD []⟩

/-- `setLocale(locale)` of part_002: reassigns the locale and rebuilds the
formatter over `this.translations[this.locale] || \x7b\x7d`. -/
def LocaleTranslator.setLocale (t : LocaleTranslator) (locale : String) :
    LocaleTranslator :=
  ⟨locale, t.translations, (jsGet t.translations locale).getD []⟩

/-- `translate()` of part_002 (lines 34–45): for each element, format its key
with the captured formatter; when truthy overwrite the element's innerHTML,
otherwise warn
`Translation not found for key: <key> in locale: <locale>` (line 42). -/
def LocaleTranslator.translate (t : LocaleTranslator) :
    List Element → List Element × List String
  | [] => ([], [])
  | e :: rest =>
    if jsTruthy (formatterFormat t.formatter e.key) then
      ({ e with innerHTML := (formatterFormat t.formatter e.key).getD "" } ::
          (t.translate rest).1,
        (t.translate rest).2)
    else
      (e :: (t.translate rest).1,
        ("Translation not found for key: " ++ e.key ++ " in locale: " ++
            t.locale) :: (t.translate rest).2)

/-- The example translations object of part_002's usage code. -/
def exampleLocaleTranslations : List (String × List (String × String)) :=
  [("en-US", [("hello", "Hello"), ("goodbye", "Goodbye")]),
   ("uk-UA", [("hello", "Привіт"), ("goodbye", "До побачення")])]

/-- `new Translator('uk-UA', translations)` of part_002's usage code. -/
def exampleLocaleTranslator : LocaleTranslator :=
  LocaleTranslator.make (some "uk-UA") (some exampleLocaleTranslations)

/-! ### Helper lemmas -/

/-- The guard of the flat variant's translate agrees with its lookup:
the branch taken is `Found` exactly when the looked-up value is truthy. -/
theorem FlatTranslator.flat_truthy_eq_isFound (t : FlatTranslator) (k : String) :
    jsTruthy (jsGet t.translateMap k) = (t.lookup k).isFound := by
  unfold FlatTranslator.lookup jsTruthy
  cases jsGet t.translateMap k with
  | none => rfl
  | some s =>
    by_cases h : s = "" <;> simp [h, LookupResult.isFound]

/-- The guard of part_000's translate agrees with its lookup. -/
theorem MLTranslator.ml_truthy_eq_isFound (t : MLTranslator) (k : String) :
    jsTruthy (t.resolve k) = (t.lookup k).isFound := by
  unfold MLTranslator.lookup jsTruthy
  cases t.resolve k with
  | none => rfl
  | some s =>
    by_cases h : s = "" <;> simp [h, LookupResult.isFound]

/-- Flat translate distributes over list append: the per-element loop treats
each element independently. -/
theorem FlatTranslator.flat_translate_append (t : FlatTranslator)
    (xs ys : List Element) :
    t.translate (xs ++ ys) =
      ((t.translate xs).1 ++ (t.translate ys).1,
       (t.translate xs).2 ++ (t.translate ys).2) := by
  induction xs with
  | nil => simp [FlatTranslator.translate]
  | cons e rest ih =>
    by_cases h : jsTruthy (jsGet t.translateMap e.key) <;>
      simp [FlatTranslator.translate, h, ih]

/-- Part_000 translate distributes over list append. -/
theorem MLTranslator.ml_translate_append (t : MLTranslator)
    (xs ys : List Element) :
    t.translate (xs ++ ys) =
      ((t.translate xs).1 ++ (t.translate ys).1,
       (t.translate xs).2 ++ (t.translate ys).2) := by
  induction xs with
  | nil => simp [MLTranslator.translate]
  | cons e rest ih =>
    by_cases h : jsTruthy (t.resolve e.key) <;>
      simp [MLTranslator.translate, h, ih]

/-- Splicing a found element into a flat-variant batch: its content becomes
the stored text, the surrounding elements translate as they do alone. -/
theorem FlatTranslator.flat_translate_found (t : FlatTranslator) (v : String)
    (e : Element) (xs ys : List Element)
    (hk : jsGet t.translateMap e.key = some v) (hv : v ≠ "") :
    (t.translate (xs ++ e :: ys)).1 =
      (t.translate xs).1 ++ { e with innerHTML := v } :: (t.translate ys).1 := by
  have ht : jsTruthy (jsGet t.translateMap e.key) = true := by
    simp [jsTruthy, hk, hv]
  rw [FlatTranslator.flat_translate_append]
  simp [FlatTranslator.translate, jsTruthy, hk, hv]

/-- Splicing a found element into a part_000 batch. -/
theorem MLTranslator.ml_translate_found (t : MLTranslator)
    (m : List (String × String)) (v : String) (e : Element)
    (xs ys : List Element)
    (hm : jsGet t.translations t.language = some m)
    (hk : jsGet m e.key = some v) (hv : v ≠ "") :
    (t.translate (xs ++ e :: ys)).1 =
      (t.translate xs).1 ++ { e with innerHTML := v } :: (t.translate ys).1 := by
  have hr : t.resolve e.key = some v := by
    simp [MLTranslator.resolve, hm, hk]
  have ht : jsTruthy (t.resolve e.key) = true := by
    simp [jsTruthy, hr, hv]
  rw [MLTranslator.ml_translate_append]
  simp [MLTranslator.translate, jsTruthy, hr, hv]

/-- Splicing a not-found element into a part_000 batch: it is left unchanged,
one warning line is emitted for it, the rest translate as they do alone. -/
theorem MLTranslator.ml_translate_notfound (t : MLTranslator) (e : Element)
    (xs ys : List Element) (h : jsTruthy (t.resolve e.key) = false) :
    t.translate (xs ++ e :: ys) =
      ((t.translate xs).1 ++ e :: (t.translate ys).1,
       (t.translate xs).2 ++
         ("Translation not found for key: " ++ e.key ++ " in language: " ++
             t.language) :: (t.translate ys).2) := by
  rw [MLTranslator.ml_translate_append]
  simp [MLTranslator.translate, h]

/-- Splicing a not-found element into a flat-variant batch. -/
theorem FlatTranslator.flat_translate_notfound (t : FlatTranslator) (e : Element)
    (xs ys : List Element)
    (h : jsTruthy (jsGet t.translateMap e.key) = false) :
    t.translate (xs ++ e :: ys) =
      ((t.translate xs).1 ++ e :: (t.translate ys).1,
       (t.translate xs).2 ++
         ("Translation not found for key: " ++ e.key) ::
           (t.translate ys).2) := by
  rw [FlatTranslator.flat_translate_append]
  simp [FlatTranslator.translate, h]

/-- The spec-modelled flat applyAll refines the source translate: same
resulting elements and same warning lines. -/
theorem FlatTranslator.flat_applyAll_refines (t : FlatTranslator)
    (es : List Element) :
    (t.applyAll es).1 = (t.translate es).1 ∧
    (t.applyAll es).2.1 = (t.translate es).2 := by
  induction es with
  | nil => exact ⟨rfl, rfl⟩
  | cons e rest ih =>
    by_cases h : jsTruthy (jsGet t.translateMap e.key) <;>
      simp [FlatTranslator.applyAll, FlatTranslator.translate, h, ih]

/-- The spec-modelled part_000 applyAll refines the source translate. -/
theorem MLTranslator.ml_applyAll_refines (t : MLTranslator) (es : List Element) :
    (t.applyAll es).1 = (t.translate es).1 ∧
    (t.applyAll es).2.1 = (t.translate es).2 := by
  induction es with
  | nil => exact ⟨rfl, rfl⟩
  | cons e rest ih =>
    by_cases h : jsTruthy (t.resolve e.key) <;>
      simp [MLTranslator.applyAll, MLTranslator.translate, h, ih]

/-- The flat applyAll summary counts found and not-found requests. -/
theorem FlatTranslator.flat_applyAll_counts (t : FlatTranslator)
    (es : List Element) :
    (t.applyAll es).2.2.applied =
      es.countP (fun e => (t.lookup e.key).isFound) ∧
    (t.applyAll es).2.2.missing =
      es.countP (fun e => !(t.lookup e.key).isFound) := by
  induction es with
  | nil => exact ⟨rfl, rfl⟩
  | cons e rest ih =>
    by_cases h : jsTruthy (jsGet t.translateMap e.key) <;>
      simp [FlatTranslator.applyAll, List.countP_cons, h, ih,
        ← FlatTranslator.flat_truthy_eq_isFound]

/-- The part_000 applyAll summary counts found and not-found requests. -/
theorem MLTranslator.ml_applyAll_counts (t : MLTranslator) (es : List Element) :
    (t.applyAll es).2.2.applied =
      es.countP (fun e => (t.lookup e.key).isFound) ∧
    (t.applyAll es).2.2.missing =
      es.countP (fun e => !(t.lookup e.key).isFound) := by
  induction es with
  | nil => exact ⟨rfl, rfl⟩
  | cons e rest ih =>
    by_cases h : jsTruthy (t.resolve e.key) <;>
      simp [MLTranslator.applyAll, List.countP_cons, h, ih,
        ← MLTranslator.ml_truthy_eq_isFound]

/-- Running the flat applyAll on its own output reproduces the whole result:
elements, warnings and summary. -/
theorem FlatTranslator.applyAll_idem (t : FlatTranslator) (es : List Element) :
    t.applyAll (t.applyAll es).1 = t.applyAll es := by
  induction es with
  | nil => rfl
  | cons e rest ih =>
    by_cases h : jsTruthy (jsGet t.translateMap e.key) <;>
      simp [FlatTranslator.applyAll, h, ih]

/-- The string the proxy get trap produces for a property when a table `m`
is present: the table's truthy entry, or the placeholder. Helper for the
lemmas about part_001. -/
def proxyValue (m : List (String × String)) (prop : String) : String :=
  match jsGet m prop with
  | some s =>
      if s == "" then "Translation not found for key: " ++ prop else s
  | none => "Translation not found for key: " ++ prop

/-- With a table present the get trap never throws: it returns
`proxyValue`. -/
theorem ProxyTranslator.proxyGet_some (m : List (String × String))
    (prop : String) :
    (ProxyTranslator.make (some m)).proxyGet prop = .ok (proxyValue m prop) := by
  cases h : jsGet m prop with
  | none => simp [ProxyTranslator.proxyGet, ProxyTranslator.make, proxyValue, h]
  | some s =>
    by_cases hs : s = "" <;>
      simp [ProxyTranslator.proxyGet, ProxyTranslator.make, proxyValue, h, hs]

/-- With a table present, the proxy usage loop never throws and overwrites
every element with the trap's value for its key. -/
theorem proxyApplyAll_some (m : List (String × String)) (es : List Element) :
    proxyApplyAll (ProxyTranslator.make (some m)) es =
      .ok (es.map (fun e => { e with innerHTML := proxyValue m e.key })) := by
  induction es with
  | nil => rfl
  | cons e rest ih =>
    simp only [ProxyTranslator.make] at ih ⊢
    cases h : jsGet m e.key with
    | none =>
      simp [proxyApplyAll, ProxyTranslator.proxyGet, proxyValue, h, ih]
    | some s =>
      by_cases hs : s = "" <;>
        simp [proxyApplyAll, ProxyTranslator.proxyGet, proxyValue, h, hs, ih]

/-! ### Claim theorems -/

/-- C1: for every key K present in the active language's sub-map (and, for
the flat variant, in the flat map) with a non-empty value V, lookup K is
Found V, and translate sets the content of every element whose data-translate
key is K to V, wherever it sits in the batch. -/
theorem claim_C1 (tM : MLTranslator) (tF : FlatTranslator)
    (m : List (String × String)) (K V : String)
    (hm : jsGet tM.translations tM.language = some m)
    (hKM : jsGet m K = some V)
    (hKF : jsGet tF.translateMap K = some V)
    (hV : V ≠ "") :
    tM.lookup K = .Found V ∧ tF.lookup K = .Found V ∧
    (∀ xs ys e, e.key = K →
      (tM.translate (xs ++ e :: ys)).1 =
        (tM.translate xs).1 ++
          { e with innerHTML := V } :: (tM.translate ys).1) ∧
    (∀ xs ys e, e.key = K →
      (tF.translate (xs ++ e :: ys)).1 =
        (tF.translate xs).1 ++
          { e with innerHTML := V } :: (tF.translate ys).1) := by
  refine ⟨?_, ?_, ?_, ?_⟩
  · simp [MLTranslator.lookup, MLTranslator.resolve, hm, hKM, hV]
  · simp [FlatTranslator.lookup, hKF, hV]
  · intro xs ys e he
    subst he
    exact tM.ml_translate_found m V e xs ys hm hKM hV
  · intro xs ys e he
    subst he
    exact tF.flat_translate_found V e xs ys hKF hV

/-- Witness for C1 at the usage-example translators and the key hello. -/
theorem claim_C1_witness :
    exampleMLTranslator.lookup "hello" = .Found "Привіт" ∧
    exampleFlatTranslator.lookup "hello" = .Found "Привіт" ∧
    (exampleMLTranslator.translate [⟨"hello", ""⟩]).1 =
      [⟨"hello", "Привіт"⟩] ∧
    (exampleFlatTranslator.translate [⟨"hello", ""⟩]).1 =
      [⟨"hello", "Привіт"⟩] := by
  have h := claim_C1 exampleMLTranslator exampleFlatTranslator
    [("hello", "Привіт"), ("goodbye", "До побачення")] "hello" "Привіт"
    rfl rfl rfl (by decide)
  refine ⟨h.1, h.2.1, ?_, ?_⟩
  · simpa [MLTranslator.translate] using h.2.2.1 [] [] ⟨"hello", ""⟩ rfl
  · simpa [FlatTranslator.translate] using h.2.2.2 [] [] ⟨"hello", ""⟩ rfl

/-- C2: for every key K absent from the active language's sub-map (and from
the flat/proxy maps), the static strategies' lookup is NotFound while the
proxy get trap yields the placeholder string, which contains K verbatim. -/
theorem claim_C2 (tM : MLTranslator) (tF : FlatTranslator)
    (m mp : List (String × String)) (K : String)
    (hm : jsGet tM.translations tM.language = some m)
    (hKM : jsGet m K = none)
    (hKF : jsGet tF.translateMap K = none)
    (hKP : jsGet mp K = none) :
    tM.lookup K = .NotFound ∧ tF.lookup K = .NotFound ∧
    (ProxyTranslator.make (some mp)).proxyGet K =
      .ok ("Translation not found for key: " ++ K) ∧
    ∃ pre, "Translation not found for key: " ++ K = pre ++ K := by
  refine ⟨?_, ?_, ?_, ⟨"Translation not found for key: ", rfl⟩⟩
  · simp [MLTranslator.lookup, MLTranslator.resolve, hm, hKM]
  · simp [FlatTranslator.lookup, hKF]
  · simp [ProxyTranslator.proxyGet, ProxyTranslator.make, hKP]

/-- Witness for C2 at the usage-example tables and the key missing. -/
theorem claim_C2_witness :
    exampleMLTranslator.lookup "missing" = .NotFound ∧
    exampleFlatTranslator.lookup "missing" = .NotFound ∧
    (ProxyTranslator.make (some exampleFlatMap)).proxyGet "missing" =
      .ok ("Translation not found for key: " ++ "missing") ∧
    ∃ pre, "Translation not found for key: " ++ "missing" = pre ++ "missing" :=
  claim_C2 exampleMLTranslator exampleFlatTranslator
    [("hello", "Привіт"), ("goodbye", "До побачення")] exampleFlatMap
    "missing" rfl rfl rfl rfl

/-- C3: applyAll returns the summary pair whose applied component counts the
requests whose key was found and whose missing component counts those whose
key was not, while performing exactly the source translate on the elements
and warnings (part_000 and flat variants). -/
theorem claim_C3 (tM : MLTranslator) (tF : FlatTranslator)
    (es : List Element) :
    ((tM.applyAll es).2.2.applied =
        es.countP (fun e => (tM.lookup e.key).isFound) ∧
      (tM.applyAll es).2.2.missing =
        es.countP (fun e => !(tM.lookup e.key).isFound) ∧
      (tM.applyAll es).1 = (tM.translate es).1 ∧
      (tM.applyAll es).2.1 = (tM.translate es).2) ∧
    ((tF.applyAll es).2.2.applied =
        es.countP (fun e => (tF.lookup e.key).isFound) ∧
      (tF.applyAll es).2.2.missing =
        es.countP (fun e => !(tF.lookup e.key).isFound) ∧
      (tF.applyAll es).1 = (tF.translate es).1 ∧
      (tF.applyAll es).2.1 = (tF.translate es).2) :=
  ⟨⟨(tM.ml_applyAll_counts es).1, (tM.ml_applyAll_counts es).2,
    (tM.ml_applyAll_refines es).1, (tM.ml_applyAll_refines es).2⟩,
   ⟨(tF.flat_applyAll_counts es).1, (tF.flat_applyAll_counts es).2,
    (tF.flat_applyAll_refines es).1, (tF.flat_applyAll_refines es).2⟩⟩

/-- C4: in the static-map variants, a request with a missing key leaves its
target unchanged and emits one diagnostic line, aborts nothing, and the
other requests of the batch produce exactly what they produce when the
missing-key request is absent. -/
theorem claim_C4 (tM : MLTranslator) (tF : FlatTranslator) (e : Element)
    (xs ys : List Element)
    (hM : jsTruthy (tM.resolve e.key) = false)
    (hF : jsTruthy (jsGet tF.translateMap e.key) = false) :
    (tM.translate (xs ++ e :: ys)).1 =
      (tM.translate xs).1 ++ e :: (tM.translate ys).1 ∧
    (tM.translate (xs ++ ys)).1 = (tM.translate xs).1 ++ (tM.translate ys).1 ∧
    (tM.translate (xs ++ e :: ys)).2 =
      (tM.translate xs).2 ++
        ("Translation not found for key: " ++ e.key ++ " in language: " ++
            tM.language) :: (tM.translate ys).2 ∧
    (tF.translate (xs ++ e :: ys)).1 =
      (tF.translate xs).1 ++ e :: (tF.translate ys).1 ∧
    (tF.translate (xs ++ ys)).1 = (tF.translate xs).1 ++ (tF.translate ys).1 ∧
    (tF.translate (xs ++ e :: ys)).2 =
      (tF.translate xs).2 ++
        ("Translation not found for key: " ++ e.key) ::
          (tF.translate ys).2 := by
  have h1 := tM.ml_translate_notfound e xs ys hM
  have h2 := tM.ml_translate_append xs ys
  have h3 := tF.flat_translate_notfound e xs ys hF
  have h4 := tF.flat_translate_append xs ys
  exact ⟨congrArg Prod.fst h1, congrArg Prod.fst h2, congrArg Prod.snd h1,
    congrArg Prod.fst h3, congrArg Prod.fst h4, congrArg Prod.snd h3⟩

/-- Witness for C4: an absent key between two present ones, at the
usage-example translators. -/
theorem claim_C4_witness :
    (exampleMLTranslator.translate
        ([⟨"hello", "a"⟩] ++ ⟨"absent", "o"⟩ :: [⟨"goodbye", "b"⟩])).1 =
      (exampleMLTranslator.translate [⟨"hello", "a"⟩]).1 ++
        ⟨"absent", "o"⟩ ::
          (exampleMLTranslator.translate [⟨"goodbye", "b"⟩]).1 ∧
    (exampleMLTranslator.translate
        ([⟨"hello", "a"⟩] ++ [⟨"goodbye", "b"⟩])).1 =
      (exampleMLTranslator.translate [⟨"hello", "a"⟩]).1 ++
        (exampleMLTranslator.translate [⟨"goodbye", "b"⟩]).1 ∧
    (exampleMLTranslator.translate
        ([⟨"hello", "a"⟩] ++ ⟨"absent", "o"⟩ :: [⟨"goodbye", "b"⟩])).2 =
      (exampleMLTranslator.translate [⟨"hello", "a"⟩]).2 ++
        ("Translation not found for key: " ++ "absent" ++ " in language: " ++
            exampleMLTranslator.language) ::
          (exampleMLTranslator.translate [⟨"goodbye", "b"⟩]).2 ∧
    (exampleFlatTranslator.translate
        ([⟨"hello", "a"⟩] ++ ⟨"absent", "o"⟩ :: [⟨"goodbye", "b"⟩])).1 =
      (exampleFlatTranslator.translate [⟨"hello", "a"⟩]).1 ++
        ⟨"absent", "o"⟩ ::
          (exampleFlatTranslator.translate [⟨"goodbye", "b"⟩]).1 ∧
    (exampleFlatTranslator.translate
        ([⟨"hello", "a"⟩] ++ [⟨"goodbye", "b"⟩])).1 =
      (exampleFlatTranslator.translate [⟨"hello", "a"⟩]).1 ++
        (exampleFlatTranslator.translate [⟨"goodbye", "b"⟩]).1 ∧
    (exampleFlatTranslator.translate
        ([⟨"hello", "a"⟩] ++ ⟨"absent", "o"⟩ :: [⟨"goodbye", "b"⟩])).2 =
      (exampleFlatTranslator.translate [⟨"hello", "a"⟩]).2 ++
        ("Translation not found for key: " ++ "absent") ::
          (exampleFlatTranslator.translate [⟨"goodbye", "b"⟩]).2 :=
  claim_C4 exampleMLTranslator exampleFlatTranslator ⟨"absent", "o"⟩
    [⟨"hello", "a"⟩] [⟨"goodbye", "b"⟩] rfl rfl

/-- C5 counterexample: the proxy variant's constructor (part_001 line 16)
stores its argument without a default, so a translator built with a missing
(undefined) table throws a TypeError on lookup instead of degrading to the
placeholder. -/
theorem claim_C5_counterexample :
    (ProxyTranslator.make none).proxyGet "hello" = .error .typeError ∧
    (ProxyTranslator.make none).proxyGet "hello" ≠
      .ok ("Translation not found for key: " ++ "hello") :=
  ⟨rfl, fun h => nomatch h⟩

/-- C5 (amended): for every key, a missing table or a missing language
sub-map degrades the static strategies' lookup to NotFound, and the dynamic
strategy over an empty table yields the placeholder; but the dynamic
strategy constructed with a missing (undefined) table fails with a TypeError
on every lookup instead of returning the placeholder. -/
theorem claim_C5_amended (K lang : String) (t : MLTranslator)
    (hsub : jsGet t.translations t.language = none) :
    (FlatTranslator.make none).lookup K = .NotFound ∧
    (MLTranslator.make (some lang) none).lookup K = .NotFound ∧
    t.lookup K = .NotFound ∧
    (ProxyTranslator.make (some [])).proxyGet K =
      .ok ("Translation not found for key: " ++ K) ∧
    (ProxyTranslator.make none).proxyGet K = .error .typeError := by
  refine ⟨?_, ?_, ?_, rfl, rfl⟩
  · simp [FlatTranslator.make, FlatTranslator.lookup, jsGet]
  · simp [MLTranslator.make, MLTranslator.lookup, MLTranslator.resolve, jsGet]
  · simp [MLTranslator.lookup, MLTranslator.resolve, hsub]

/-- Witness for C5 (amended): concrete translators with a missing table, a
missing language sub-map, an empty proxy table and a missing proxy table. -/
theorem claim_C5_witness :
    (FlatTranslator.make none).lookup "hello" = .NotFound ∧
    (MLTranslator.make (some "uk") none).lookup "hello" = .NotFound ∧
    (MLTranslator.make (some "de")
        (some exampleTranslations)).lookup "hello" = .NotFound ∧
    (ProxyTranslator.make (some [])).proxyGet "hello" =
      .ok ("Translation not found for key: " ++ "hello") ∧
    (ProxyTranslator.make none).proxyGet "hello" = .error .typeError :=
  claim_C5_amended "hello" "uk"
    (MLTranslator.make (some "de") (some exampleTranslations)) rfl

/-- C6: the flat static-map applyAll is idempotent with unchanged table:
re-running it on its own output leaves every element content as after one
run and reproduces identical applied/missing counts (and warnings). -/
theorem claim_C6 (t : FlatTranslator) (es : List Element) :
    (t.applyAll (t.applyAll es).1).1 = (t.applyAll es).1 ∧
    (t.applyAll (t.applyAll es).1).2.2 = (t.applyAll es).2.2 ∧
    (t.applyAll (t.applyAll es).1).2.1 = (t.applyAll es).2.1 := by
  have h := t.applyAll_idem es
  exact ⟨by rw [h], by rw [h], by rw [h]⟩

/-- C7 counterexample: part_002 is a multi-language (locale) variant, yet
its diagnostic of line 42 reads `in locale:`, not the `in language:`
wording the claim states for the multi-language variants. -/
theorem claim_C7_counterexample :
    (exampleLocaleTranslator.translate [⟨"missing", "o"⟩]).2 =
      ["Translation not found for key: missing in locale: uk-UA"] ∧
    ("Translation not found for key: missing in locale: uk-UA" : String) ≠
      "Translation not found for key: missing in language: uk-UA" :=
  ⟨rfl, by decide⟩

/-- C7 (amended): the diagnostic for a missing key is exactly
`Translation not found for key: <key> in language: <tag>` in the
multi-language static variant part_000, exactly
`Translation not found for key: <key> in locale: <tag>` in the
locale-formatter variant part_002, and exactly
`Translation not found for key: <key>` in the flat-map variant. -/
theorem claim_C7_amended (tM : MLTranslator) (tF : FlatTranslator)
    (tL : LocaleTranslator) (e : Element)
    (hM : jsTruthy (tM.resolve e.key) = false)
    (hF : jsTruthy (jsGet tF.translateMap e.key) = false)
    (hL : jsTruthy (formatterFormat tL.formatter e.key) = false) :
    (tM.translate [e]).2 =
      ["Translation not found for key: " ++ e.key ++ " in language: " ++
          tM.language] ∧
    (tF.translate [e]).2 = ["Translation not found for key: " ++ e.key] ∧
    (tL.translate [e]).2 =
      ["Translation not found for key: " ++ e.key ++ " in locale: " ++
          tL.locale] := by
  refine ⟨?_, ?_, ?_⟩ <;>
    simp [MLTranslator.translate, FlatTranslator.translate,
      LocaleTranslator.translate, hM, hF, hL]

/-- Witness for C7 (amended) at the usage-example translators and the key
missing. -/
theorem claim_C7_witness :
    (exampleMLTranslator.translate [⟨"missing", "o"⟩]).2 =
      ["Translation not found for key: " ++ "missing" ++ " in language: " ++
          exampleMLTranslator.language] ∧
    (exampleFlatTranslator.translate [⟨"missing", "o"⟩]).2 =
      ["Translation not found for key: " ++ "missing"] ∧
    (exampleLocaleTranslator.translate [⟨"missing", "o"⟩]).2 =
      ["Translation not found for key: " ++ "missing" ++ " in locale: " ++
          exampleLocaleTranslator.locale] :=
  claim_C7_amended exampleMLTranslator exampleFlatTranslator
    exampleLocaleTranslator ⟨"missing", "o"⟩ rfl rfl rfl

/-- C8: after setLanguage T, translate resolves every key exclusively
against T's sub-map — the whole result is independent of the previously
active language, and every found key writes table[T][key]. -/
theorem claim_C8 (t t' : MLTranslator) (T : String) (es : List Element)
    (htr : t.translations = t'.translations) :
    (t.setLanguage T).translate es = (t'.setLanguage T).translate es ∧
    ∀ m v e xs ys, jsGet t.translations T = some m →
      jsGet m e.key = some v → v ≠ "" →
      ((t.setLanguage T).translate (xs ++ e :: ys)).1 =
        ((t.setLanguage T).translate xs).1 ++
          { e with innerHTML := v } ::
            ((t.setLanguage T).translate ys).1 := by
  have hEq : t.setLanguage T = t'.setLanguage T := by
    simp [MLTranslator.setLanguage, htr]
  refine ⟨by rw [hEq], ?_⟩
  intro m v e xs ys hm hk hv
  exact (t.setLanguage T).ml_translate_found m v e xs ys hm hk hv

/-- Witness for C8, following the spec's scenario 4: switching the
usage-example translator from uk (and a copy from it) to en writes the
English text Hello for the key hello. -/
theorem claim_C8_witness :
    (exampleMLTranslator.setLanguage "en").translate [⟨"hello", "Привіт"⟩] =
      ((MLTranslator.make (some "it")
          (some exampleTranslations)).setLanguage "en").translate
        [⟨"hello", "Привіт"⟩] ∧
    ((exampleMLTranslator.setLanguage "en").translate
        ([] ++ (⟨"hello", "Привіт"⟩ : Element) :: [])).1 =
      ((exampleMLTranslator.setLanguage "en").translate []).1 ++
        { (⟨"hello", "Привіт"⟩ : Element) with innerHTML := "Hello" } ::
          ((exampleMLTranslator.setLanguage "en").translate []).1 := by
  have h := claim_C8 exampleMLTranslator
    (MLTranslator.make (some "it") (some exampleTranslations)) "en"
    [⟨"hello", "Привіт"⟩] rfl
  exact ⟨h.1, h.2 [("hello", "Hello"), ("goodbye", "Goodbye")] "Hello"
    ⟨"hello", "Привіт"⟩ [] [] rfl rfl (by decide)⟩

/-- C9: with a table supplied, the proxy-strategy apply loop writes to every
target: it never throws, its output is determined by the request keys alone
(so no target's prior content survives), keys are preserved, and every
output content is either the table's non-empty entry for its key or the
generated placeholder. -/
theorem claim_C9 (m : List (String × String)) (es es' : List Element)
    (hk : es.map Element.key = es'.map Element.key) :
    ∃ out, proxyApplyAll (ProxyTranslator.make (some m)) es = .ok out ∧
      proxyApplyAll (ProxyTranslator.make (some m)) es' = .ok out ∧
      out.map Element.key = es.map Element.key ∧
      ∀ e ∈ out,
        (∃ v, jsGet m e.key = some v ∧ v ≠ "" ∧ e.innerHTML = v) ∨
        e.innerHTML = "Translation not found for key: " ++ e.key := by
  have h1 : ∀ l : List Element,
      l.map (fun e => ({ e with innerHTML := proxyValue m e.key } : Element)) =
        (l.map Element.key).map (fun k => (⟨k, proxyValue m k⟩ : Element)) := by
    intro l
    rw [List.map_map]
    rfl
  refine ⟨es.map (fun e => { e with innerHTML := proxyValue m e.key }),
    proxyApplyAll_some m es, ?_, ?_, ?_⟩
  · rw [proxyApplyAll_some m es', h1, h1, hk]
  · rw [List.map_map]
    rfl
  · intro e he
    rw [List.mem_map] at he
    obtain ⟨a, _, rfl⟩ := he
    cases h : jsGet m a.key with
    | none => right; simp [proxyValue, h]
    | some s =>
      by_cases hs : s = ""
      · right; simp [proxyValue, h, hs]
      · left; exact ⟨s, rfl, hs, by simp [proxyValue, h, hs]⟩

/-- Witness for C9: two batches sharing keys (one present, one absent) but
with different prior contents give the same fully-overwritten output. -/
theorem claim_C9_witness :
    ∃ out,
      proxyApplyAll (ProxyTranslator.make (some exampleFlatMap))
          [⟨"hello", "x"⟩, ⟨"absent", "y"⟩] = .ok out ∧
      proxyApplyAll (ProxyTranslator.make (some exampleFlatMap))
          [⟨"hello", "p"⟩, ⟨"absent", "q"⟩] = .ok out ∧
      out.map Element.key =
        [(⟨"hello", "x"⟩ : Element), ⟨"absent", "y"⟩].map Element.key ∧
      ∀ e ∈ out,
        (∃ v, jsGet exampleFlatMap e.key = some v ∧ v ≠ "" ∧
          e.innerHTML = v) ∨
        e.innerHTML = "Translation not found for key: " ++ e.key :=
  claim_C9 exampleFlatMap [⟨"hello", "x"⟩, ⟨"absent", "y"⟩]
    [⟨"hello", "p"⟩, ⟨"absent", "q"⟩] rfl

/-- C10 counterexample: the proxy get trap resolves every property name
against the table, so reading the property named translations on the
usage-example proxy yields the placeholder string — not the translation
table object stored in the instance field of that name — and when the table
itself has an entry under the key translations, it is that entry, not the
field, that is returned. -/
theorem claim_C10_counterexample :
    (ProxyTranslator.make (some exampleFlatMap)).proxyGet "translations" =
      .ok ("Translation not found for key: " ++ "translations") ∧
    (ProxyTranslator.make
        (some [("translations", "entry text")])).proxyGet "translations" =
      .ok "entry text" :=
  ⟨rfl, rfl⟩

/-- C10 (amended): the interception applies to every property name, but a
name colliding with an instance field is still resolved against the
translation table — yielding the table's entry for that key when non-empty
and the placeholder otherwise, never the field's own value. -/
theorem claim_C10_amended (m : List (String × String)) :
    (jsGet m "translations" = none →
      (ProxyTranslator.make (some m)).proxyGet "translations" =
        .ok ("Translation not found for key: " ++ "translations")) ∧
    (∀ v, jsGet m "translations" = some v → v ≠ "" →
      (ProxyTranslator.make (some m)).proxyGet "translations" = .ok v) := by
  constructor
  · intro h
    simp [ProxyTranslator.proxyGet, ProxyTranslator.make, h]
  · intro v h hv
    simp [ProxyTranslator.proxyGet, ProxyTranslator.make, h, hv]

/-- Witness for C10 (amended): a table without a translations entry yields
the placeholder for the property named translations. -/
theorem claim_C10_witness :
    (ProxyTranslator.make (some [("hello", "Привіт")])).proxyGet
        "translations" =
      .ok ("Translation not found for key: " ++ "translations") :=
  (claim_C10_amended [("hello", "Привіт")]).1 rfl

end Translation
